import Mathlib

/-!
Verification of the MP3 frame-counting core of the MP3-File-Analysis-App
repository, a shallow embedding of `src/core/streaming-mp3-parser.ts`.

Bytes are modelled as natural numbers, buffers as `List Nat`, and the two
scanners (the streaming `StreamingMp3Parser.getFrameCount` data handler and
the whole-buffer `Mp3Parser.getFrameCount`) as fuelled loops over a cursor.
JavaScript quirks that matter are noted at each definition:
the loop bound `offset < buffer.length - MIN_HEADER_SIZE` is integer
arithmetic without truncation, hence `offset + MIN_HEADER_SIZE < length`;
`(header >> 12) & 0xF` sign-extends but the mask keeps only bits 12-15, so
it equals `header / 2 ^ 12 % 16` for any `header < 2 ^ 32`.
-/

set_option maxRecDepth 10000

/-- Constant `MP3_CONSTANTS.FRAME_SYNC_BYTE1` from `src/config/constants.ts`. -/
def FRAME_SYNC_BYTE1 : Nat := 0xff

/-- Constant `MP3_CONSTANTS.FRAME_SYNC_BYTE2_MASK` from `src/config/constants.ts`. -/
def FRAME_SYNC_BYTE2_MASK : Nat := 0xe0

/-- Constant `MP3_CONSTANTS.FRAME_SIZE_COEFFICIENT` from `src/config/constants.ts`. -/
def FRAME_SIZE_COEFFICIENT : Nat := 144

/-- Constant `MP3_CONSTANTS.BITRATE_MULTIPLIER` from `src/config/constants.ts`. -/
def BITRATE_MULTIPLIER : Nat := 1000

/-- Constant `MP3_CONSTANTS.MIN_HEADER_SIZE` from `src/config/constants.ts`. -/
def MIN_HEADER_SIZE : Nat := 4

/-- Bitrate table for MPEG1 Layer 3 in kbps, `BITRATE_TABLE` in both classes. -/
def BITRATE_TABLE : List Nat :=
  [0, 32, 40, 48, 56, 64, 80, 96, 112, 128, 160, 192, 224, 256, 320, 0]

/-- Sample rate table for MPEG1 in Hz, `SAMPLE_RATE_TABLE` in both classes. -/
def SAMPLE_RATE_TABLE : List Nat := [44100, 48000, 32000, 0]

/-- Message of the `InvalidMp3Error` thrown by both constructors on a zero-size input. -/
def FILE_IS_EMPTY_MSG : String := "File is empty"

/-- Message of the `InvalidMp3Error` thrown when a scan accepts no frame. -/
def NO_FRAMES_MSG : String := "No valid MP3 frames found"

/-- Reading a big-endian 32-bit value, `buffer.readUInt32BE(offset)`.
Out-of-range indices contribute 0; every use in the scanners is guarded so
that all four bytes are in range. -/
def readUInt32BE (buffer : List Nat) (offset : Nat) : Nat :=
  buffer.getD offset 0 * 2 ^ 24 + buffer.getD (offset + 1) 0 * 2 ^ 16 +
    buffer.getD (offset + 2) 0 * 2 ^ 8 + buffer.getD (offset + 3) 0

/-- Field extraction and frame-size arithmetic shared verbatim by
`StreamingMp3Parser.getFrameSize` (lines 100-120) and `Mp3Parser.getFrameSize`
(lines 190-214): bitrate index `(header >> 12) & 0x0f`, sample-rate index
`(header >> 10) & 0x03`, padding bit `(header >> 9) & 0x01`, rejection when
either table lookup is 0, otherwise
`Math.floor(144 * bitrate * 1000 / sampleRate) + padding`. -/
def decodeHeader (header : Nat) : Nat :=
  let bitrateIndex := header / 2 ^ 12 % 16
  let bitrate := BITRATE_TABLE.getD bitrateIndex 0
  let sampleRateIndex := header / 2 ^ 10 % 4
  let sampleRate := SAMPLE_RATE_TABLE.getD sampleRateIndex 0
  let padding := header / 2 ^ 9 % 2
  if bitrate = 0 ∨ sampleRate = 0 then 0
  else FRAME_SIZE_COEFFICIENT * bitrate * BITRATE_MULTIPLIER / sampleRate + padding

/-- The `getFrameSize` method of both classes: 0 when fewer than
`MIN_HEADER_SIZE` bytes are available at `offset`, otherwise the decoded size
of the big-endian header read at `offset`. -/
def getFrameSize (buffer : List Nat) (offset : Nat) : Nat :=
  if buffer.length < offset + MIN_HEADER_SIZE then 0
  else decodeHeader (readUInt32BE buffer offset)

/-- The frame-sync test of both scan loops: `buffer[offset] === 0xFF` and
`(buffer[offset+1] & 0xE0) === 0xE0`, with the `undefined` guards of the
source amounting to the bound `offset + 1 < buffer.length`. -/
def syncAt (buffer : List Nat) (offset : Nat) : Bool :=
  decide (offset + 1 < buffer.length) &&
    buffer.getD offset 0 == FRAME_SYNC_BYTE1 &&
    (buffer.getD (offset + 1) 0 &&& FRAME_SYNC_BYTE2_MASK) == FRAME_SYNC_BYTE2_MASK

/-- The `while` loop of the `StreamingMp3Parser.getFrameCount` data handler
(lines 45-72), made total with a fuel argument; one unit of fuel per loop
iteration, and `buffer.length` fuel always suffices (theorem
`streamScanLoop_fuel`).  The loop bound `offset < buffer.length - 4` of the
source is JavaScript integer arithmetic, i.e. `offset + 4 < buffer.length`.
On an accepted frame that is not fully buffered the loop `break`s, leaving
the offset unchanged (the suspend path). -/
def streamScanLoop : Nat → List Nat → Nat → Nat → Nat × Nat
  | 0, _, offset, frameCount => (offset, frameCount)
  | fuel + 1, buffer, offset, frameCount =>
    if offset + MIN_HEADER_SIZE < buffer.length then
      if syncAt buffer offset then
        if 0 < getFrameSize buffer offset then
          if offset + getFrameSize buffer offset ≤ buffer.length then
            streamScanLoop fuel buffer (offset + getFrameSize buffer offset) (frameCount + 1)
          else (offset, frameCount)
        else streamScanLoop fuel buffer (offset + 1) frameCount
      else streamScanLoop fuel buffer (offset + 1) frameCount
    else (offset, frameCount)

/-- The `while` loop of `Mp3Parser.getFrameCount` (lines 154-176), same shape
as `streamScanLoop` but counting an accepted frame unconditionally: the source
has no `offset + frameSize <= buffer.length` containment check. -/
def wholeScanLoop : Nat → List Nat → Nat → Nat → Nat × Nat
  | 0, _, offset, frameCount => (offset, frameCount)
  | fuel + 1, buffer, offset, frameCount =>
    if offset + MIN_HEADER_SIZE < buffer.length then
      if syncAt buffer offset then
        if 0 < getFrameSize buffer offset then
          wholeScanLoop fuel buffer (offset + getFrameSize buffer offset) (frameCount + 1)
        else wholeScanLoop fuel buffer (offset + 1) frameCount
      else wholeScanLoop fuel buffer (offset + 1) frameCount
    else (offset, frameCount)

/-- One pass of the streaming scan loop starting at `offset` with accumulated
count `frameCount`, with enough fuel to run to its halt point. -/
def streamScan (buffer : List Nat) (offset frameCount : Nat) : Nat × Nat :=
  streamScanLoop buffer.length buffer offset frameCount

/-- One pass of the whole-buffer scan loop with enough fuel. -/
def wholeScan (buffer : List Nat) (offset frameCount : Nat) : Nat × Nat :=
  wholeScanLoop buffer.length buffer offset frameCount

/-- The `data` event handler of `StreamingMp3Parser.getFrameCount`
(lines 40-79): append the chunk to the carried buffer, run the scan loop from
offset 0, then drop the consumed bytes (the source guards the drop with
`offset > 0`; dropping 0 bytes is the identity, both are modelled).  The state
is the pair of the carried buffer and the accumulated frame count. -/
def processChunk (state : List Nat × Nat) (chunk : List Nat) : List Nat × Nat :=
  let buffer := state.1 ++ chunk
  let r := streamScan buffer 0 state.2
  if 0 < r.1 then (buffer.drop r.1, r.2) else (buffer, r.2)

/-- Delivery of a whole chunk sequence to the streaming scanner, starting from
the initial state `Buffer.alloc(0)` / `frameCount = 0`. -/
def processChunks (chunks : List (List Nat)) : List Nat × Nat :=
  chunks.foldl processChunk ([], 0)

/-- End-to-end result of `StreamingMp3Parser` on a chunked byte source:
the constructor rejects a zero-size source with `FILE_IS_EMPTY_MSG` before any
scanning, the `end` handler rejects a zero count with `NO_FRAMES_MSG`, and
otherwise the accumulated count is resolved. -/
def streamingGetFrameCount (chunks : List (List Nat)) : Except String Nat :=
  if chunks.flatten.length = 0 then Except.error FILE_IS_EMPTY_MSG
  else
    let s := processChunks chunks
    if s.2 = 0 then Except.error NO_FRAMES_MSG
    else Except.ok s.2

/-- End-to-end result of `Mp3Parser` on a resident buffer: the constructor
rejects an empty buffer with `FILE_IS_EMPTY_MSG`, `getFrameCount` throws
`NO_FRAMES_MSG` on a zero count and otherwise returns the count. -/
def mp3GetFrameCount (buffer : List Nat) : Except String Nat :=
  if buffer.length = 0 then Except.error FILE_IS_EMPTY_MSG
  else
    let r := wholeScan buffer 0 0
    if r.2 = 0 then Except.error NO_FRAMES_MSG
    else Except.ok r.2

/-- Modelled from the spec: the whole-buffer scan loop as claim C8 states its
bound, continuing "while at least 4 bytes remain ahead of the cursor", i.e.
`offset + 4 ≤ buffer.length`; every other line is `wholeScanLoop`.  The code
under `src/` uses the strict bound instead, and this variant exists only to
exhibit the observable difference. -/
def wholeScanLoopClaimBound : Nat → List Nat → Nat → Nat → Nat × Nat
  | 0, _, offset, frameCount => (offset, frameCount)
  | fuel + 1, buffer, offset, frameCount =>
    if offset + MIN_HEADER_SIZE ≤ buffer.length then
      if syncAt buffer offset then
        if 0 < getFrameSize buffer offset then
          wholeScanLoopClaimBound fuel buffer (offset + getFrameSize buffer offset) (frameCount + 1)
        else wholeScanLoopClaimBound fuel buffer (offset + 1) frameCount
      else wholeScanLoopClaimBound fuel buffer (offset + 1) frameCount
    else (offset, frameCount)

/-- Test vector: the 417-byte frame of spec section 8, header
`0xFF 0xFB 0x90 0x00` zero-padded to its computed length 417. -/
def frame417 : List Nat := 0xFF :: 0xFB :: 0x90 :: 0x00 :: List.replicate 413 0

/-- Test vector: ten copies of `frame417` concatenated. -/
def frames10 : List Nat := (List.replicate 10 frame417).flatten

/-- Test vector: a valid, accepted 417-byte header followed by a single byte,
so the declared frame length 417 overruns the 5 available bytes. -/
def truncFrame5 : List Nat := [0xFF, 0xFB, 0x90, 0x00, 0x00]

/-- Test vector: the bare 4-byte header `0xFF 0xFB 0x90 0x00` and nothing else. -/
def header4 : List Nat := [0xFF, 0xFB, 0x90, 0x00]

/-- Test vector: a sync-matching header with bitrate index 15, which the
decoder rejects, followed by a spare byte. -/
def rejectHeader5 : List Nat := [0xFF, 0xFB, 0xF0, 0x00, 0x00]

/-! ### List access congruence lemmas -/

theorem getD_drop (l : List Nat) (d i : Nat) : (l.drop d).getD i 0 = l.getD (d + i) 0 := by
  simp [List.getD_eq_getElem?_getD, List.getElem?_drop]

theorem getD_append_left (l l' : List Nat) (i : Nat) (h : i < l.length) :
    (l ++ l').getD i 0 = l.getD i 0 :=
  List.getD_append l l' 0 i h

theorem getD_append_add (l l' : List Nat) (i : Nat) :
    (l ++ l').getD (l.length + i) 0 = l'.getD i 0 := by
  rw [List.getD_append_right l l' 0 (l.length + i) (Nat.le_add_right _ _)]
  congr 1
  omega

theorem readUInt32BE_drop (l : List Nat) (d i : Nat) :
    readUInt32BE (l.drop d) i = readUInt32BE l (d + i) := by
  unfold readUInt32BE
  rw [getD_drop, getD_drop, getD_drop, getD_drop,
    show d + (i + 1) = d + i + 1 from rfl, show d + (i + 2) = d + i + 2 from rfl,
    show d + (i + 3) = d + i + 3 from rfl]

theorem readUInt32BE_append (l l' : List Nat) (i : Nat) (h : i + 4 ≤ l.length) :
    readUInt32BE (l ++ l') i = readUInt32BE l i := by
  unfold readUInt32BE
  rw [getD_append_left _ _ _ (by omega), getD_append_left _ _ _ (by omega),
    getD_append_left _ _ _ (by omega), getD_append_left _ _ _ (by omega)]

theorem readUInt32BE_append_add (l l' : List Nat) (i : Nat) :
    readUInt32BE (l ++ l') (l.length + i) = readUInt32BE l' i := by
  unfold readUInt32BE
  rw [getD_append_add,
    show l.length + i + 1 = l.length + (i + 1) from rfl, getD_append_add,
    show l.length + i + 2 = l.length + (i + 2) from rfl, getD_append_add,
    show l.length + i + 3 = l.length + (i + 3) from rfl, getD_append_add]

theorem syncAt_drop (l : List Nat) (d i : Nat) :
    syncAt (l.drop d) i = syncAt l (d + i) := by
  unfold syncAt
  rw [getD_drop, getD_drop, List.length_drop,
    show (decide (i + 1 < l.length - d)) = decide (d + i + 1 < l.length) from
      decide_eq_decide.mpr (by omega),
    show d + (i + 1) = d + i + 1 from rfl]

theorem syncAt_append (l l' : List Nat) (i : Nat) (h : i + 1 < l.length) :
    syncAt (l ++ l') i = syncAt l i := by
  unfold syncAt
  rw [getD_append_left _ _ _ (by omega), getD_append_left _ _ _ h, List.length_append,
    show (decide (i + 1 < l.length + l'.length)) = decide (i + 1 < l.length) from
      decide_eq_decide.mpr (by omega)]

theorem syncAt_append_add (l l' : List Nat) (i : Nat) :
    syncAt (l ++ l') (l.length + i) = syncAt l' i := by
  unfold syncAt
  rw [getD_append_add, show l.length + i + 1 = l.length + (i + 1) from rfl, getD_append_add,
    List.length_append,
    show (decide (l.length + (i + 1) < l.length + l'.length)) = decide (i + 1 < l'.length) from
      decide_eq_decide.mpr (by omega)]

theorem getFrameSize_drop (l : List Nat) (d i : Nat) :
    getFrameSize (l.drop d) i = getFrameSize l (d + i) := by
  unfold getFrameSize
  rw [readUInt32BE_drop, List.length_drop]
  have hM : MIN_HEADER_SIZE = 4 := rfl
  by_cases h : l.length < d + i + MIN_HEADER_SIZE
  · rw [if_pos h, if_pos (by rw [hM] at *; omega)]
  · rw [if_neg h, if_neg (by rw [hM] at *; omega)]

theorem getFrameSize_append (l l' : List Nat) (i : Nat) (h : i + MIN_HEADER_SIZE ≤ l.length) :
    getFrameSize (l ++ l') i = getFrameSize l i := by
  unfold getFrameSize
  rw [List.length_append, readUInt32BE_append _ _ _ h]
  rw [if_neg (by omega), if_neg (by omega)]

theorem getFrameSize_append_add (l l' : List Nat) (i : Nat) :
    getFrameSize (l ++ l') (l.length + i) = getFrameSize l' i := by
  unfold getFrameSize
  rw [readUInt32BE_append_add, List.length_append]
  by_cases h : l'.length < i + MIN_HEADER_SIZE
  · rw [if_pos (by omega), if_pos h]
  · rw [if_neg (by omega), if_neg h]

/-! ### Range of the decoder output -/

theorem decodeHeader_range (h : Nat) :
    decodeHeader h = 0 ∨ (96 ≤ decodeHeader h ∧ decodeHeader h ≤ 1441) := by
  have key : ∀ bi < 16, ∀ si < 4, ∀ pp < 2,
      (fun v => v = 0 ∨ (96 ≤ v ∧ v ≤ 1441))
        (if BITRATE_TABLE.getD bi 0 = 0 ∨ SAMPLE_RATE_TABLE.getD si 0 = 0 then 0
         else FRAME_SIZE_COEFFICIENT * BITRATE_TABLE.getD bi 0 * BITRATE_MULTIPLIER /
           SAMPLE_RATE_TABLE.getD si 0 + pp) := by decide
  have h1 : h / 2 ^ 12 % 16 < 16 := Nat.mod_lt _ (by norm_num)
  have h2 : h / 2 ^ 10 % 4 < 4 := Nat.mod_lt _ (by norm_num)
  have h3 : h / 2 ^ 9 % 2 < 2 := Nat.mod_lt _ (by norm_num)
  have hk := key _ h1 _ h2 _ h3
  simpa [decodeHeader] using hk

theorem getFrameSize_range (buffer : List Nat) (offset : Nat) :
    getFrameSize buffer offset = 0 ∨
      (96 ≤ getFrameSize buffer offset ∧ getFrameSize buffer offset ≤ 1441) := by
  unfold getFrameSize
  split
  · exact Or.inl rfl
  · exact decodeHeader_range _

theorem getFrameSize_ge (buffer : List Nat) (offset : Nat)
    (h : getFrameSize buffer offset ≠ 0) : 96 ≤ getFrameSize buffer offset := by
  rcases getFrameSize_range buffer offset with h0 | ⟨h1, _⟩
  · exact absurd h0 h
  · exact h1

theorem getFrameSize_le (buffer : List Nat) (offset : Nat) :
    getFrameSize buffer offset ≤ 1441 := by
  rcases getFrameSize_range buffer offset with h0 | ⟨_, h2⟩
  · omega
  · exact h2

/-! ### Loop unfolding and fuel irrelevance -/

theorem streamScanLoop_succ (fuel : Nat) (buffer : List Nat) (offset frameCount : Nat) :
    streamScanLoop (fuel + 1) buffer offset frameCount =
      if offset + MIN_HEADER_SIZE < buffer.length then
        if syncAt buffer offset then
          if 0 < getFrameSize buffer offset then
            if offset + getFrameSize buffer offset ≤ buffer.length then
              streamScanLoop fuel buffer (offset + getFrameSize buffer offset) (frameCount + 1)
            else (offset, frameCount)
          else streamScanLoop fuel buffer (offset + 1) frameCount
        else streamScanLoop fuel buffer (offset + 1) frameCount
      else (offset, frameCount) := rfl

theorem wholeScanLoop_succ (fuel : Nat) (buffer : List Nat) (offset frameCount : Nat) :
    wholeScanLoop (fuel + 1) buffer offset frameCount =
      if offset + MIN_HEADER_SIZE < buffer.length then
        if syncAt buffer offset then
          if 0 < getFrameSize buffer offset then
            wholeScanLoop fuel buffer (offset + getFrameSize buffer offset) (frameCount + 1)
          else wholeScanLoop fuel buffer (offset + 1) frameCount
        else wholeScanLoop fuel buffer (offset + 1) frameCount
      else (offset, frameCount) := rfl

theorem streamScanLoop_fuel (buffer : List Nat) :
    ∀ f1 f2 offset frameCount, buffer.length - offset ≤ f1 → buffer.length - offset ≤ f2 →
      streamScanLoop f1 buffer offset frameCount = streamScanLoop f2 buffer offset frameCount := by
  intro f1
  induction f1 with
  | zero =>
    intro f2 offset frameCount h1 h2
    have hoff : ¬ (offset + MIN_HEADER_SIZE < buffer.length) := by
      have : MIN_HEADER_SIZE = 4 := rfl
      omega
    cases f2 with
    | zero => rfl
    | succ f2 => rw [streamScanLoop_succ, if_neg hoff]; rfl
  | succ f ih =>
    intro f2 offset frameCount h1 h2
    cases f2 with
    | zero =>
      have hoff : ¬ (offset + MIN_HEADER_SIZE < buffer.length) := by
        have : MIN_HEADER_SIZE = 4 := rfl
        omega
      rw [streamScanLoop_succ, if_neg hoff]; rfl
    | succ f2 =>
      rw [streamScanLoop_succ, streamScanLoop_succ]
      by_cases hoff : offset + MIN_HEADER_SIZE < buffer.length
      · have hoff4 : offset + 4 < buffer.length := hoff
        rw [if_pos hoff, if_pos hoff]
        by_cases hsync : syncAt buffer offset
        · rw [if_pos hsync, if_pos hsync]
          by_cases hfs : 0 < getFrameSize buffer offset
          · rw [if_pos hfs, if_pos hfs]
            by_cases hcont : offset + getFrameSize buffer offset ≤ buffer.length
            · rw [if_pos hcont, if_pos hcont]
              exact ih f2 _ _ (by omega) (by omega)
            · rw [if_neg hcont, if_neg hcont]
          · rw [if_neg hfs, if_neg hfs]
            exact ih f2 _ _ (by omega) (by omega)
        · rw [if_neg hsync, if_neg hsync]
          exact ih f2 _ _ (by omega) (by omega)
      · rw [if_neg hoff, if_neg hoff]

theorem wholeScanLoop_fuel (buffer : List Nat) :
    ∀ f1 f2 offset frameCount, buffer.length - offset ≤ f1 → buffer.length - offset ≤ f2 →
      wholeScanLoop f1 buffer offset frameCount = wholeScanLoop f2 buffer offset frameCount := by
  intro f1
  induction f1 with
  | zero =>
    intro f2 offset frameCount h1 h2
    have hoff : ¬ (offset + MIN_HEADER_SIZE < buffer.length) := by
      have : MIN_HEADER_SIZE = 4 := rfl
      omega
    cases f2 with
    | zero => rfl
    | succ f2 => rw [wholeScanLoop_succ, if_neg hoff]; rfl
  | succ f ih =>
    intro f2 offset frameCount h1 h2
    cases f2 with
    | zero =>
      have hoff : ¬ (offset + MIN_HEADER_SIZE < buffer.length) := by
        have : MIN_HEADER_SIZE = 4 := rfl
        omega
      rw [wholeScanLoop_succ, if_neg hoff]; rfl
    | succ f2 =>
      rw [wholeScanLoop_succ, wholeScanLoop_succ]
      by_cases hoff : offset + MIN_HEADER_SIZE < buffer.length
      · have hoff4 : offset + 4 < buffer.length := hoff
        rw [if_pos hoff, if_pos hoff]
        by_cases hsync : syncAt buffer offset
        · rw [if_pos hsync, if_pos hsync]
          by_cases hfs : 0 < getFrameSize buffer offset
          · rw [if_pos hfs, if_pos hfs]
            exact ih f2 _ _ (by omega) (by omega)
          · rw [if_neg hfs, if_neg hfs]
            exact ih f2 _ _ (by omega) (by omega)
        · rw [if_neg hsync, if_neg hsync]
          exact ih f2 _ _ (by omega) (by omega)
      · rw [if_neg hoff, if_neg hoff]

/-! ### One-step characterization of a scan pass -/

theorem streamScan_halt (buffer : List Nat) (offset frameCount : Nat)
    (h : ¬ offset + MIN_HEADER_SIZE < buffer.length) :
    streamScan buffer offset frameCount = (offset, frameCount) := by
  unfold streamScan
  cases hn : buffer.length with
  | zero => rfl
  | succ n => rw [streamScanLoop_succ, if_neg h]

theorem streamScan_nonsync (buffer : List Nat) (offset frameCount : Nat)
    (h : offset + MIN_HEADER_SIZE < buffer.length) (hs : syncAt buffer offset = false) :
    streamScan buffer offset frameCount = streamScan buffer (offset + 1) frameCount := by
  unfold streamScan
  have h4 : offset + 4 < buffer.length := h
  cases hn : buffer.length with
  | zero => omega
  | succ n =>
    rw [streamScanLoop_succ, if_pos h, if_neg (show ¬ syncAt buffer offset = true by simp [hs])]
    exact streamScanLoop_fuel buffer n (n + 1) (offset + 1) frameCount (by omega) (by omega)

theorem streamScan_reject (buffer : List Nat) (offset frameCount : Nat)
    (h : offset + MIN_HEADER_SIZE < buffer.length) (hs : syncAt buffer offset = true)
    (hfs : getFrameSize buffer offset = 0) :
    streamScan buffer offset frameCount = streamScan buffer (offset + 1) frameCount := by
  unfold streamScan
  have h4 : offset + 4 < buffer.length := h
  cases hn : buffer.length with
  | zero => omega
  | succ n =>
    rw [streamScanLoop_succ, if_pos h, if_pos hs, if_neg (by omega)]
    exact streamScanLoop_fuel buffer n (n + 1) (offset + 1) frameCount (by omega) (by omega)

theorem streamScan_accept (buffer : List Nat) (offset frameCount : Nat)
    (h : offset + MIN_HEADER_SIZE < buffer.length) (hs : syncAt buffer offset = true)
    (hfs : 0 < getFrameSize buffer offset)
    (hc : offset + getFrameSize buffer offset ≤ buffer.length) :
    streamScan buffer offset frameCount =
      streamScan buffer (offset + getFrameSize buffer offset) (frameCount + 1) := by
  unfold streamScan
  have h4 : offset + 4 < buffer.length := h
  cases hn : buffer.length with
  | zero => omega
  | succ n =>
    rw [streamScanLoop_succ, if_pos h, if_pos hs, if_pos hfs, if_pos hc]
    exact streamScanLoop_fuel buffer n (n + 1) _ (frameCount + 1) (by omega) (by omega)

theorem streamScan_suspend (buffer : List Nat) (offset frameCount : Nat)
    (h : offset + MIN_HEADER_SIZE < buffer.length) (hs : syncAt buffer offset = true)
    (hfs : 0 < getFrameSize buffer offset)
    (hc : buffer.length < offset + getFrameSize buffer offset) :
    streamScan buffer offset frameCount = (offset, frameCount) := by
  unfold streamScan
  have h4 : offset + 4 < buffer.length := h
  cases hn : buffer.length with
  | zero => omega
  | succ n => rw [streamScanLoop_succ, if_pos h, if_pos hs, if_pos hfs, if_neg (by omega)]

theorem wholeScan_halt (buffer : List Nat) (offset frameCount : Nat)
    (h : ¬ offset + MIN_HEADER_SIZE < buffer.length) :
    wholeScan buffer offset frameCount = (offset, frameCount) := by
  unfold wholeScan
  cases hn : buffer.length with
  | zero => rfl
  | succ n => rw [wholeScanLoop_succ, if_neg h]

theorem wholeScan_nonsync (buffer : List Nat) (offset frameCount : Nat)
    (h : offset + MIN_HEADER_SIZE < buffer.length) (hs : syncAt buffer offset = false) :
    wholeScan buffer offset frameCount = wholeScan buffer (offset + 1) frameCount := by
  unfold wholeScan
  have h4 : offset + 4 < buffer.length := h
  cases hn : buffer.length with
  | zero => omega
  | succ n =>
    rw [wholeScanLoop_succ, if_pos h, if_neg (show ¬ syncAt buffer offset = true by simp [hs])]
    exact wholeScanLoop_fuel buffer n (n + 1) (offset + 1) frameCount (by omega) (by omega)

theorem wholeScan_reject (buffer : List Nat) (offset frameCount : Nat)
    (h : offset + MIN_HEADER_SIZE < buffer.length) (hs : syncAt buffer offset = true)
    (hfs : getFrameSize buffer offset = 0) :
    wholeScan buffer offset frameCount = wholeScan buffer (offset + 1) frameCount := by
  unfold wholeScan
  have h4 : offset + 4 < buffer.length := h
  cases hn : buffer.length with
  | zero => omega
  | succ n =>
    rw [wholeScanLoop_succ, if_pos h, if_pos hs, if_neg (by omega)]
    exact wholeScanLoop_fuel buffer n (n + 1) (offset + 1) frameCount (by omega) (by omega)

theorem wholeScan_accept (buffer : List Nat) (offset frameCount : Nat)
    (h : offset + MIN_HEADER_SIZE < buffer.length) (hs : syncAt buffer offset = true)
    (hfs : 0 < getFrameSize buffer offset) :
    wholeScan buffer offset frameCount =
      wholeScan buffer (offset + getFrameSize buffer offset) (frameCount + 1) := by
  unfold wholeScan
  have h4 : offset + 4 < buffer.length := h
  cases hn : buffer.length with
  | zero => omega
  | succ n =>
    rw [wholeScanLoop_succ, if_pos h, if_pos hs, if_pos hfs]
    exact wholeScanLoop_fuel buffer n (n + 1) _ (frameCount + 1) (by omega) (by omega)

/-! ### Monotonicity, bounds and halting of the scan cursor -/

theorem streamScanLoop_mono (buffer : List Nat) :
    ∀ fuel offset frameCount, offset ≤ (streamScanLoop fuel buffer offset frameCount).1 := by
  intro fuel
  induction fuel with
  | zero => intro offset frameCount; exact Nat.le_refl _
  | succ f ih =>
    intro offset frameCount
    rw [streamScanLoop_succ]
    by_cases hoff : offset + MIN_HEADER_SIZE < buffer.length
    · rw [if_pos hoff]
      by_cases hsync : syncAt buffer offset
      · rw [if_pos hsync]
        by_cases hfs : 0 < getFrameSize buffer offset
        · rw [if_pos hfs]
          by_cases hcont : offset + getFrameSize buffer offset ≤ buffer.length
          · rw [if_pos hcont]
            have := ih (offset + getFrameSize buffer offset) (frameCount + 1)
            omega
          · rw [if_neg hcont]
        · rw [if_neg hfs]
          have := ih (offset + 1) frameCount
          omega
      · rw [if_neg hsync]
        have := ih (offset + 1) frameCount
        omega
    · rw [if_neg hoff]

theorem wholeScanLoop_mono (buffer : List Nat) :
    ∀ fuel offset frameCount, offset ≤ (wholeScanLoop fuel buffer offset frameCount).1 := by
  intro fuel
  induction fuel with
  | zero => intro offset frameCount; exact Nat.le_refl _
  | succ f ih =>
    intro offset frameCount
    rw [wholeScanLoop_succ]
    by_cases hoff : offset + MIN_HEADER_SIZE < buffer.length
    · rw [if_pos hoff]
      by_cases hsync : syncAt buffer offset
      · rw [if_pos hsync]
        by_cases hfs : 0 < getFrameSize buffer offset
        · rw [if_pos hfs]
          have := ih (offset + getFrameSize buffer offset) (frameCount + 1)
          omega
        · rw [if_neg hfs]
          have := ih (offset + 1) frameCount
          omega
      · rw [if_neg hsync]
        have := ih (offset + 1) frameCount
        omega
    · rw [if_neg hoff]

theorem streamScanLoop_le_length (buffer : List Nat) :
    ∀ fuel offset frameCount, offset ≤ buffer.length →
      (streamScanLoop fuel buffer offset frameCount).1 ≤ buffer.length := by
  intro fuel
  induction fuel with
  | zero => intro offset frameCount h; exact h
  | succ f ih =>
    intro offset frameCount h
    rw [streamScanLoop_succ]
    by_cases hoff : offset + MIN_HEADER_SIZE < buffer.length
    · have h4 : offset + 4 < buffer.length := hoff
      rw [if_pos hoff]
      by_cases hsync : syncAt buffer offset
      · rw [if_pos hsync]
        by_cases hfs : 0 < getFrameSize buffer offset
        · rw [if_pos hfs]
          by_cases hcont : offset + getFrameSize buffer offset ≤ buffer.length
          · rw [if_pos hcont]
            exact ih _ _ hcont
          · rw [if_neg hcont]
            exact h
        · rw [if_neg hfs]
          exact ih _ _ (by omega)
      · rw [if_neg hsync]
        exact ih _ _ (by omega)
    · rw [if_neg hoff]
      exact h

theorem streamScanLoop_halt_cond (buffer : List Nat) :
    ∀ fuel offset frameCount, buffer.length - offset ≤ fuel →
      buffer.length ≤ (streamScanLoop fuel buffer offset frameCount).1 + MIN_HEADER_SIZE ∨
      (syncAt buffer (streamScanLoop fuel buffer offset frameCount).1 = true ∧
        0 < getFrameSize buffer (streamScanLoop fuel buffer offset frameCount).1 ∧
        buffer.length < (streamScanLoop fuel buffer offset frameCount).1 +
          getFrameSize buffer (streamScanLoop fuel buffer offset frameCount).1) := by
  intro fuel
  induction fuel with
  | zero =>
    intro offset frameCount h
    left
    have hM : MIN_HEADER_SIZE = 4 := rfl
    simp only [streamScanLoop]
    omega
  | succ f ih =>
    intro offset frameCount h
    rw [streamScanLoop_succ]
    by_cases hoff : offset + MIN_HEADER_SIZE < buffer.length
    · have h4 : offset + 4 < buffer.length := hoff
      rw [if_pos hoff]
      by_cases hsync : syncAt buffer offset
      · rw [if_pos hsync]
        by_cases hfs : 0 < getFrameSize buffer offset
        · rw [if_pos hfs]
          by_cases hcont : offset + getFrameSize buffer offset ≤ buffer.length
          · rw [if_pos hcont]
            exact ih _ _ (by omega)
          · rw [if_neg hcont]
            right
            refine ⟨hsync, hfs, ?_⟩
            show buffer.length < offset + getFrameSize buffer offset
            omega
        · rw [if_neg hfs]
          exact ih _ _ (by omega)
      · rw [if_neg hsync]
        exact ih _ _ (by omega)
    · rw [if_neg hoff]
      left
      have hM : MIN_HEADER_SIZE = 4 := rfl
      omega

theorem wholeScanLoop_halt_cond (buffer : List Nat) :
    ∀ fuel offset frameCount, buffer.length - offset ≤ fuel →
      buffer.length ≤ (wholeScanLoop fuel buffer offset frameCount).1 + MIN_HEADER_SIZE := by
  intro fuel
  induction fuel with
  | zero =>
    intro offset frameCount h
    have hM : MIN_HEADER_SIZE = 4 := rfl
    simp only [wholeScanLoop]
    omega
  | succ f ih =>
    intro offset frameCount h
    rw [wholeScanLoop_succ]
    by_cases hoff : offset + MIN_HEADER_SIZE < buffer.length
    · have h4 : offset + 4 < buffer.length := hoff
      rw [if_pos hoff]
      by_cases hsync : syncAt buffer offset
      · rw [if_pos hsync]
        by_cases hfs : 0 < getFrameSize buffer offset
        · rw [if_pos hfs]
          exact ih _ _ (by omega)
        · rw [if_neg hfs]
          exact ih _ _ (by omega)
      · rw [if_neg hsync]
        exact ih _ _ (by omega)
    · rw [if_neg hoff]
      have hM : MIN_HEADER_SIZE = 4 := rfl
      omega

/-! ### Extension and shift: a pass is insensitive to data beyond its halt
point and to consumed data before its start offset -/

theorem streamScan_append_ext (ext buffer : List Nat) :
    ∀ n offset frameCount, buffer.length - offset ≤ n →
      streamScan (buffer ++ ext) offset frameCount =
        streamScan (buffer ++ ext) (streamScan buffer offset frameCount).1
          (streamScan buffer offset frameCount).2 := by
  intro n
  induction n with
  | zero =>
    intro offset frameCount h
    have hM : MIN_HEADER_SIZE = 4 := rfl
    rw [streamScan_halt buffer offset frameCount (by omega)]
  | succ n ih =>
    intro offset frameCount h
    have hM : MIN_HEADER_SIZE = 4 := rfl
    by_cases hoff : offset + MIN_HEADER_SIZE < buffer.length
    · have h4 : offset + 4 < buffer.length := hoff
      have hoff2 : offset + MIN_HEADER_SIZE < (buffer ++ ext).length := by
        rw [List.length_append]; omega
      have hsyncEq : syncAt (buffer ++ ext) offset = syncAt buffer offset :=
        syncAt_append buffer ext offset (by omega)
      have hfsEq : getFrameSize (buffer ++ ext) offset = getFrameSize buffer offset :=
        getFrameSize_append buffer ext offset (by omega)
      by_cases hsync : syncAt buffer offset = true
      · by_cases hfs : 0 < getFrameSize buffer offset
        · by_cases hcont : offset + getFrameSize buffer offset ≤ buffer.length
          · rw [streamScan_accept (buffer ++ ext) offset frameCount hoff2
              (by rw [hsyncEq]; exact hsync) (by rw [hfsEq]; exact hfs)
              (by rw [hfsEq, List.length_append]; omega),
              streamScan_accept buffer offset frameCount hoff hsync hfs hcont, hfsEq]
            exact ih _ _ (by omega)
          · rw [streamScan_suspend buffer offset frameCount hoff hsync hfs (by omega)]
        · have hfs0 : getFrameSize buffer offset = 0 := by omega
          rw [streamScan_reject (buffer ++ ext) offset frameCount hoff2
              (by rw [hsyncEq]; exact hsync) (by rw [hfsEq]; exact hfs0),
            streamScan_reject buffer offset frameCount hoff hsync hfs0]
          exact ih _ _ (by omega)
      · have hsF : syncAt buffer offset = false := by
          cases hb : syncAt buffer offset
          · rfl
          · exact absurd hb hsync
        rw [streamScan_nonsync (buffer ++ ext) offset frameCount hoff2
            (by rw [hsyncEq]; exact hsF),
          streamScan_nonsync buffer offset frameCount hoff hsF]
        exact ih _ _ (by omega)
    · rw [streamScan_halt buffer offset frameCount hoff]

theorem streamScan_drop (buffer : List Nat) (d : Nat) (hd : d ≤ buffer.length) :
    ∀ n offset frameCount, buffer.length - (d + offset) ≤ n →
      streamScan (buffer.drop d) offset frameCount =
        ((streamScan buffer (d + offset) frameCount).1 - d,
          (streamScan buffer (d + offset) frameCount).2) := by
  intro n
  induction n with
  | zero =>
    intro offset frameCount h
    have hM : MIN_HEADER_SIZE = 4 := rfl
    rw [streamScan_halt (buffer.drop d) offset frameCount (by rw [List.length_drop]; omega),
      streamScan_halt buffer (d + offset) frameCount (by omega)]
    show (offset, frameCount) = (d + offset - d, frameCount)
    rw [Nat.add_sub_cancel_left]
  | succ n ih =>
    intro offset frameCount h
    have hM : MIN_HEADER_SIZE = 4 := rfl
    by_cases hoff : d + offset + MIN_HEADER_SIZE < buffer.length
    · have hoffd : offset + MIN_HEADER_SIZE < (buffer.drop d).length := by
        rw [List.length_drop]; omega
      have hsyncEq : syncAt (buffer.drop d) offset = syncAt buffer (d + offset) :=
        syncAt_drop buffer d offset
      have hfsEq : getFrameSize (buffer.drop d) offset = getFrameSize buffer (d + offset) :=
        getFrameSize_drop buffer d offset
      by_cases hsync : syncAt buffer (d + offset) = true
      · by_cases hfs : 0 < getFrameSize buffer (d + offset)
        · by_cases hcont : d + offset + getFrameSize buffer (d + offset) ≤ buffer.length
          · rw [streamScan_accept (buffer.drop d) offset frameCount hoffd
              (by rw [hsyncEq]; exact hsync) (by rw [hfsEq]; exact hfs)
              (by rw [hfsEq, List.length_drop]; omega),
              streamScan_accept buffer (d + offset) frameCount hoff hsync hfs (by omega), hfsEq]
            have hrec := ih (offset + getFrameSize buffer (d + offset)) (frameCount + 1) (by omega)
            rw [show d + (offset + getFrameSize buffer (d + offset)) =
              d + offset + getFrameSize buffer (d + offset) from
                (Nat.add_assoc d offset _).symm] at hrec
            exact hrec
          · rw [streamScan_suspend (buffer.drop d) offset frameCount hoffd
              (by rw [hsyncEq]; exact hsync) (by rw [hfsEq]; exact hfs)
              (by rw [hfsEq, List.length_drop]; omega),
              streamScan_suspend buffer (d + offset) frameCount hoff hsync hfs (by omega)]
            show (offset, frameCount) = (d + offset - d, frameCount)
            rw [Nat.add_sub_cancel_left]
        · have hfs0 : getFrameSize buffer (d + offset) = 0 := by omega
          rw [streamScan_reject (buffer.drop d) offset frameCount hoffd
              (by rw [hsyncEq]; exact hsync) (by rw [hfsEq]; exact hfs0),
            streamScan_reject buffer (d + offset) frameCount hoff hsync hfs0]
          have hrec := ih (offset + 1) frameCount (by omega)
          rw [show d + (offset + 1) = d + offset + 1 from rfl] at hrec
          exact hrec
      · have hsF : syncAt buffer (d + offset) = false := by
          cases hb : syncAt buffer (d + offset)
          · rfl
          · exact absurd hb hsync
        rw [streamScan_nonsync (buffer.drop d) offset frameCount hoffd
            (by rw [hsyncEq]; exact hsF),
          streamScan_nonsync buffer (d + offset) frameCount hoff hsF]
        have hrec := ih (offset + 1) frameCount (by omega)
        rw [show d + (offset + 1) = d + offset + 1 from rfl] at hrec
        exact hrec
    · rw [streamScan_halt (buffer.drop d) offset frameCount (by rw [List.length_drop]; omega),
        streamScan_halt buffer (d + offset) frameCount hoff]
      show (offset, frameCount) = (d + offset - d, frameCount)
      rw [Nat.add_sub_cancel_left]

/-! ### Byte-at-a-time walk over a sync-free region -/

theorem streamScan_skip (buffer : List Nat) :
    ∀ k offset frameCount, (∀ i, offset ≤ i → i < offset + k → syncAt buffer i = false) →
      offset + k + MIN_HEADER_SIZE ≤ buffer.length →
      streamScan buffer offset frameCount = streamScan buffer (offset + k) frameCount := by
  intro k
  induction k with
  | zero => intro offset frameCount _ _; rfl
  | succ k ih =>
    intro offset frameCount hns hlen
    have hM : MIN_HEADER_SIZE = 4 := rfl
    have hoff : offset + MIN_HEADER_SIZE < buffer.length := by omega
    rw [streamScan_nonsync buffer offset frameCount hoff (hns offset (Nat.le_refl _) (by omega))]
    rw [ih (offset + 1) frameCount (fun i h1 h2 => hns i (by omega) (by omega)) (by omega)]
    rw [show offset + 1 + k = offset + (k + 1) from by omega]

theorem wholeScan_skip (buffer : List Nat) :
    ∀ k offset frameCount, (∀ i, offset ≤ i → i < offset + k → syncAt buffer i = false) →
      offset + k + MIN_HEADER_SIZE ≤ buffer.length →
      wholeScan buffer offset frameCount = wholeScan buffer (offset + k) frameCount := by
  intro k
  induction k with
  | zero => intro offset frameCount _ _; rfl
  | succ k ih =>
    intro offset frameCount hns hlen
    have hM : MIN_HEADER_SIZE = 4 := rfl
    have hoff : offset + MIN_HEADER_SIZE < buffer.length := by omega
    rw [wholeScan_nonsync buffer offset frameCount hoff (hns offset (Nat.le_refl _) (by omega))]
    rw [ih (offset + 1) frameCount (fun i h1 h2 => hns i (by omega) (by omega)) (by omega)]
    rw [show offset + 1 + k = offset + (k + 1) from by omega]

/-! ### The whole-buffer pass agrees with the streaming pass when the latter
halts by data exhaustion -/

theorem wholeScan_eq_streamScan (buffer : List Nat) :
    ∀ n offset frameCount, buffer.length - offset ≤ n →
      buffer.length ≤ (streamScan buffer offset frameCount).1 + MIN_HEADER_SIZE →
      wholeScan buffer offset frameCount = streamScan buffer offset frameCount := by
  intro n
  induction n with
  | zero =>
    intro offset frameCount h hns
    have hM : MIN_HEADER_SIZE = 4 := rfl
    rw [wholeScan_halt _ _ _ (by omega), streamScan_halt _ _ _ (by omega)]
  | succ n ih =>
    intro offset frameCount h hns
    have hM : MIN_HEADER_SIZE = 4 := rfl
    by_cases hoff : offset + MIN_HEADER_SIZE < buffer.length
    · have h4 : offset + 4 < buffer.length := hoff
      by_cases hsync : syncAt buffer offset = true
      · by_cases hfs : 0 < getFrameSize buffer offset
        · by_cases hcont : offset + getFrameSize buffer offset ≤ buffer.length
          · rw [streamScan_accept _ _ _ hoff hsync hfs hcont] at hns ⊢
            rw [wholeScan_accept _ _ _ hoff hsync hfs]
            exact ih _ _ (by omega) hns
          · rw [streamScan_suspend _ _ _ hoff hsync hfs (by omega)] at hns
            exact absurd (show buffer.length ≤ offset + MIN_HEADER_SIZE from hns) (by omega)
        · have hfs0 : getFrameSize buffer offset = 0 := by omega
          rw [streamScan_reject _ _ _ hoff hsync hfs0] at hns ⊢
          rw [wholeScan_reject _ _ _ hoff hsync hfs0]
          exact ih _ _ (by omega) hns
      · have hsF : syncAt buffer offset = false := by
          cases hb : syncAt buffer offset
          · rfl
          · exact absurd hb hsync
        rw [streamScan_nonsync _ _ _ hoff hsF] at hns ⊢
        rw [wholeScan_nonsync _ _ _ hoff hsF]
        exact ih _ _ (by omega) hns
    · rw [wholeScan_halt _ _ _ hoff, streamScan_halt _ _ _ hoff]

/-! ### Chunked delivery computes the scan of the concatenated data -/

theorem processChunk_eq (D c : List Nat) :
    processChunk (D.drop (streamScan D 0 0).1, (streamScan D 0 0).2) c =
      ((D ++ c).drop (streamScan (D ++ c) 0 0).1, (streamScan (D ++ c) 0 0).2) := by
  have hp : (streamScan D 0 0).1 ≤ D.length :=
    streamScanLoop_le_length D D.length 0 0 (Nat.zero_le _)
  have hbuf : D.drop (streamScan D 0 0).1 ++ c = (D ++ c).drop (streamScan D 0 0).1 :=
    (List.drop_append_of_le_length hp).symm
  have hext : streamScan (D ++ c) 0 0 =
      streamScan (D ++ c) (streamScan D 0 0).1 (streamScan D 0 0).2 :=
    streamScan_append_ext c D D.length 0 0 (by omega)
  have hq : (streamScan D 0 0).1 ≤ (streamScan (D ++ c) 0 0).1 := by
    rw [hext]
    exact streamScanLoop_mono (D ++ c) (D ++ c).length _ _
  have hshift : streamScan ((D ++ c).drop (streamScan D 0 0).1) 0 (streamScan D 0 0).2 =
      ((streamScan (D ++ c) 0 0).1 - (streamScan D 0 0).1, (streamScan (D ++ c) 0 0).2) := by
    have hs := streamScan_drop (D ++ c) (streamScan D 0 0).1
      (by rw [List.length_append]; omega) (D ++ c).length 0 (streamScan D 0 0).2 (by omega)
    rw [show (streamScan D 0 0).1 + 0 = (streamScan D 0 0).1 from rfl] at hs
    rw [hs, ← hext]
  simp only [processChunk]
  rw [hbuf, hshift]
  by_cases h0 : 0 < (streamScan (D ++ c) 0 0).1 - (streamScan D 0 0).1
  · rw [if_pos h0, List.drop_drop]
    congr 2
    omega
  · rw [if_neg h0]
    have heq : (streamScan D 0 0).1 = (streamScan (D ++ c) 0 0).1 := by omega
    rw [heq]

theorem foldl_processChunk (chunks : List (List Nat)) :
    ∀ D : List Nat,
      List.foldl processChunk (D.drop (streamScan D 0 0).1, (streamScan D 0 0).2) chunks =
        ((D ++ chunks.flatten).drop (streamScan (D ++ chunks.flatten) 0 0).1,
          (streamScan (D ++ chunks.flatten) 0 0).2) := by
  induction chunks with
  | nil => intro D; simp
  | cons c rest ih =>
    intro D
    rw [List.foldl_cons, processChunk_eq D c, ih (D ++ c), List.flatten_cons,
      List.append_assoc]

theorem processChunks_eq (chunks : List (List Nat)) :
    processChunks chunks =
      (chunks.flatten.drop (streamScan chunks.flatten 0 0).1,
        (streamScan chunks.flatten 0 0).2) := by
  unfold processChunks
  rw [show (([] : List Nat), (0 : Nat)) =
      ((([] : List Nat)).drop (streamScan [] 0 0).1, (streamScan [] 0 0).2) from rfl]
  rw [foldl_processChunk chunks []]
  simp

/-! ### Valid frames: acceptance, suspension on a truncation, repetition -/

theorem syncAt_lt (buffer : List Nat) (offset : Nat) (h : syncAt buffer offset = true) :
    offset + 1 < buffer.length := by
  unfold syncAt at h
  simp only [Bool.and_eq_true, decide_eq_true_eq] at h
  exact h.1.1

theorem getD_take (l : List Nat) (n i : Nat) (h : i < n) :
    (l.take n).getD i 0 = l.getD i 0 := by
  simp [List.getD_eq_getElem?_getD, List.getElem?_take, h]

theorem readUInt32BE_take (l : List Nat) (n i : Nat) (h : i + 4 ≤ n) :
    readUInt32BE (l.take n) i = readUInt32BE l i := by
  unfold readUInt32BE
  rw [getD_take _ _ _ (by omega), getD_take _ _ _ (by omega), getD_take _ _ _ (by omega),
    getD_take _ _ _ (by omega)]

theorem length_flatten_replicate (n : Nat) (f : List Nat) :
    ((List.replicate n f).flatten).length = n * f.length := by
  induction n with
  | zero => rw [Nat.zero_mul]; rfl
  | succ n ih =>
    rw [List.replicate_succ, List.flatten_cons, List.length_append, ih, Nat.succ_mul]
    omega

theorem streamingGetFrameCount_eq (chunks : List (List Nat)) :
    streamingGetFrameCount chunks =
      if chunks.flatten.length = 0 then Except.error FILE_IS_EMPTY_MSG
      else if (streamScan chunks.flatten 0 0).2 = 0 then Except.error NO_FRAMES_MSG
      else Except.ok (streamScan chunks.flatten 0 0).2 := by
  unfold streamingGetFrameCount
  rw [processChunks_eq]

theorem streamScan_tail_frame (p f : List Nat) (hs : syncAt f 0 = true)
    (hv : getFrameSize f 0 = f.length) (frameCount : Nat) :
    streamScan (p ++ f) p.length frameCount = (p.length + f.length, frameCount + 1) := by
  have hM : MIN_HEADER_SIZE = 4 := rfl
  have hL1 : 1 < f.length := by have := syncAt_lt f 0 hs; omega
  have hL96 : 96 ≤ f.length := by have := getFrameSize_ge f 0 (by omega); omega
  have hsyncE : syncAt (p ++ f) p.length = true := by
    have := syncAt_append_add p f 0
    rw [show p.length + 0 = p.length from rfl] at this
    rw [this]; exact hs
  have hfsE : getFrameSize (p ++ f) p.length = f.length := by
    have := getFrameSize_append_add p f 0
    rw [show p.length + 0 = p.length from rfl] at this
    rw [this]; exact hv
  have hoff : p.length + MIN_HEADER_SIZE < (p ++ f).length := by
    rw [List.length_append]; omega
  rw [streamScan_accept (p ++ f) p.length frameCount hoff hsyncE (by omega)
    (by rw [hfsE, List.length_append]), hfsE]
  exact streamScan_halt _ _ _ (by rw [List.length_append]; omega)

theorem wholeScan_tail_frame (p f : List Nat) (hs : syncAt f 0 = true)
    (hv : getFrameSize f 0 = f.length) (frameCount : Nat) :
    wholeScan (p ++ f) p.length frameCount = (p.length + f.length, frameCount + 1) := by
  have hM : MIN_HEADER_SIZE = 4 := rfl
  have hL1 : 1 < f.length := by have := syncAt_lt f 0 hs; omega
  have hL96 : 96 ≤ f.length := by have := getFrameSize_ge f 0 (by omega); omega
  have hsyncE : syncAt (p ++ f) p.length = true := by
    have := syncAt_append_add p f 0
    rw [show p.length + 0 = p.length from rfl] at this
    rw [this]; exact hs
  have hfsE : getFrameSize (p ++ f) p.length = f.length := by
    have := getFrameSize_append_add p f 0
    rw [show p.length + 0 = p.length from rfl] at this
    rw [this]; exact hv
  have hoff : p.length + MIN_HEADER_SIZE < (p ++ f).length := by
    rw [List.length_append]; omega
  rw [wholeScan_accept (p ++ f) p.length frameCount hoff hsyncE (by omega), hfsE]
  exact wholeScan_halt _ _ _ (by rw [List.length_append]; omega)

theorem streamScan_single_frame (f : List Nat) (hs : syncAt f 0 = true)
    (hv : getFrameSize f 0 = f.length) (frameCount : Nat) :
    streamScan f 0 frameCount = (f.length, frameCount + 1) := by
  have := streamScan_tail_frame [] f hs hv frameCount
  simpa using this

theorem streamScan_take_frame (f : List Nat) (hs : syncAt f 0 = true)
    (hv : getFrameSize f 0 = f.length) (k : Nat) (hk1 : 1 ≤ k) (hk2 : k < f.length)
    (frameCount : Nat) :
    streamScan (f.take k) 0 frameCount = (0, frameCount) := by
  have hM : MIN_HEADER_SIZE = 4 := rfl
  have hL1 : 1 < f.length := by have := syncAt_lt f 0 hs; omega
  have hL96 : 96 ≤ f.length := by have := getFrameSize_ge f 0 (by omega); omega
  have hlen : (f.take k).length = k := by rw [List.length_take]; omega
  by_cases hk5 : k ≤ MIN_HEADER_SIZE
  · exact streamScan_halt _ _ _ (by rw [hlen]; omega)
  · have hsyncE : syncAt (f.take k) 0 = true := by
      unfold syncAt at hs ⊢
      rw [getD_take _ _ _ (by omega), getD_take _ _ _ (by omega), List.length_take,
        show (decide (0 + 1 < k ⊓ f.length)) = decide (0 + 1 < f.length) from
          decide_eq_decide.mpr (by omega)]
      exact hs
    have hfsE : getFrameSize (f.take k) 0 = f.length := by
      unfold getFrameSize at hv ⊢
      rw [hlen, readUInt32BE_take f k 0 (by omega), if_neg (by omega)]
      rw [if_neg (by omega)] at hv
      exact hv
    exact streamScan_suspend _ _ _ (by rw [hlen]; omega) hsyncE (by omega)
      (by rw [hfsE, hlen]; omega)

theorem streamScan_repeat (f : List Nat) (hs : syncAt f 0 = true)
    (hv : getFrameSize f 0 = f.length) :
    ∀ n frameCount, streamScan (List.replicate n f).flatten 0 frameCount =
      (n * f.length, frameCount + n) := by
  have hL1 : 1 < f.length := by have := syncAt_lt f 0 hs; omega
  have hL96 : 96 ≤ f.length := by have := getFrameSize_ge f 0 (by omega); omega
  have hM : MIN_HEADER_SIZE = 4 := rfl
  intro n
  induction n with
  | zero =>
    intro frameCount
    show streamScan [] 0 frameCount = (0 * f.length, frameCount + 0)
    rw [Nat.zero_mul]
    rfl
  | succ n ih =>
    intro frameCount
    rw [List.replicate_succ, List.flatten_cons]
    have hsyncE : syncAt (f ++ (List.replicate n f).flatten) 0 = true := by
      rw [syncAt_append f _ 0 (by omega)]
      exact hs
    have hfsE : getFrameSize (f ++ (List.replicate n f).flatten) 0 = f.length := by
      rw [getFrameSize_append f _ 0 (by omega)]
      exact hv
    have hoff : 0 + MIN_HEADER_SIZE < (f ++ (List.replicate n f).flatten).length := by
      rw [List.length_append]; omega
    rw [streamScan_accept _ 0 frameCount hoff hsyncE (by omega)
      (by rw [hfsE, List.length_append]; omega), hfsE, Nat.zero_add]
    have hdrop := streamScan_drop (f ++ (List.replicate n f).flatten) f.length
      (by rw [List.length_append]; omega) (f ++ (List.replicate n f).flatten).length 0
      (frameCount + 1) (by omega)
    rw [show f.length + 0 = f.length from rfl, List.drop_left] at hdrop
    rw [ih (frameCount + 1)] at hdrop
    have hmono : f.length ≤
        (streamScan (f ++ (List.replicate n f).flatten) f.length (frameCount + 1)).1 :=
      streamScanLoop_mono _ _ _ _
    have h1 : n * f.length =
        (streamScan (f ++ (List.replicate n f).flatten) f.length (frameCount + 1)).1 -
          f.length := congrArg Prod.fst hdrop
    have h2 : frameCount + 1 + n =
        (streamScan (f ++ (List.replicate n f).flatten) f.length (frameCount + 1)).2 :=
      congrArg Prod.snd hdrop
    have hq1 : (streamScan (f ++ (List.replicate n f).flatten) f.length (frameCount + 1)).1 =
        n * f.length + f.length := (Nat.sub_eq_iff_eq_add hmono).mp h1.symm
    have hq2 : (streamScan (f ++ (List.replicate n f).flatten) f.length (frameCount + 1)).2 =
        frameCount + (n + 1) := by omega
    have hfin : ((n + 1) * f.length, frameCount + (n + 1)) =
        ((streamScan (f ++ (List.replicate n f).flatten) f.length (frameCount + 1)).1,
          (streamScan (f ++ (List.replicate n f).flatten) f.length (frameCount + 1)).2) := by
      rw [hq1, hq2, Nat.succ_mul]
    rw [hfin]

theorem streamScan_haltedAt (buffer : List Nat) (offset frameCount : Nat) :
    buffer.length ≤ (streamScan buffer offset frameCount).1 + MIN_HEADER_SIZE ∨
      (syncAt buffer (streamScan buffer offset frameCount).1 = true ∧
        0 < getFrameSize buffer (streamScan buffer offset frameCount).1 ∧
        buffer.length < (streamScan buffer offset frameCount).1 +
          getFrameSize buffer (streamScan buffer offset frameCount).1) :=
  streamScanLoop_halt_cond buffer buffer.length offset frameCount (by omega)

theorem wholeScan_haltedAt (buffer : List Nat) (offset frameCount : Nat) :
    buffer.length ≤ (wholeScan buffer offset frameCount).1 + MIN_HEADER_SIZE :=
  wholeScanLoop_halt_cond buffer buffer.length offset frameCount (by omega)

example : decodeHeader 0xFFFB9000 = 417 := by decide
example : getFrameSize frame417 0 = 417 := by decide
example : syncAt frame417 0 = true := by decide
example : streamScan truncFrame5 0 0 = (0, 0) := by decide
example : wholeScan truncFrame5 0 0 = (417, 1) := by decide
example : mp3GetFrameCount frame417 = Except.ok 1 := rfl
example : streamingGetFrameCount [frame417] = Except.ok 1 := rfl
example : (wholeScanLoopClaimBound 4 header4 0 0).2 = 1 := by decide
example : wholeScan header4 0 0 = (0, 0) := by decide

/-! ## Claim theorems -/

/-- C2: for every 32-bit header value `h`, the frame-size decoder returns the
rejection value 0 if and only if the bitrate index `(h >> 12) & 0xF` is 0 or 15
or the sample-rate index `(h >> 10) & 0x3` is 3; otherwise it returns
`floor(144 * bitrateKbps * 1000 / sampleRateHz) + padding` with `bitrateKbps`
and `sampleRateHz` looked up in the source tables and `padding = (h >> 9) & 1`,
and every non-rejected result is at least 1. -/
theorem claim_C2_decoder (h : Nat) (_hh : h < 2 ^ 32) :
    (decodeHeader h = 0 ↔
      h / 2 ^ 12 % 16 = 0 ∨ h / 2 ^ 12 % 16 = 15 ∨ h / 2 ^ 10 % 4 = 3) ∧
    (decodeHeader h ≠ 0 →
      decodeHeader h = 144 * BITRATE_TABLE.getD (h / 2 ^ 12 % 16) 0 * 1000 /
          SAMPLE_RATE_TABLE.getD (h / 2 ^ 10 % 4) 0 + h / 2 ^ 9 % 2 ∧
      1 ≤ decodeHeader h) := by
  have key : ∀ bi : Fin 16, ∀ si : Fin 4, ∀ pp : Fin 2,
      (decodeHeader (bi.val * 2 ^ 12 + si.val * 2 ^ 10 + pp.val * 2 ^ 9) = 0 ↔
        bi.val = 0 ∨ bi.val = 15 ∨ si.val = 3) ∧
      (decodeHeader (bi.val * 2 ^ 12 + si.val * 2 ^ 10 + pp.val * 2 ^ 9) ≠ 0 →
        decodeHeader (bi.val * 2 ^ 12 + si.val * 2 ^ 10 + pp.val * 2 ^ 9) =
          144 * BITRATE_TABLE.getD bi.val 0 * 1000 / SAMPLE_RATE_TABLE.getD si.val 0 + pp.val ∧
        1 ≤ decodeHeader (bi.val * 2 ^ 12 + si.val * 2 ^ 10 + pp.val * 2 ^ 9)) := by decide
  have hcong : ∀ x y : Nat, x / 2 ^ 12 % 16 = y / 2 ^ 12 % 16 →
      x / 2 ^ 10 % 4 = y / 2 ^ 10 % 4 → x / 2 ^ 9 % 2 = y / 2 ^ 9 % 2 →
      decodeHeader x = decodeHeader y := by
    intro x y e1 e2 e3
    unfold decodeHeader
    rw [e1, e2, e3]
  have h1 : h / 2 ^ 12 % 16 < 16 := Nat.mod_lt _ (by norm_num)
  have h2 : h / 2 ^ 10 % 4 < 4 := Nat.mod_lt _ (by norm_num)
  have h3 : h / 2 ^ 9 % 2 < 2 := Nat.mod_lt _ (by norm_num)
  have he : decodeHeader h =
      decodeHeader (h / 2 ^ 12 % 16 * 2 ^ 12 + h / 2 ^ 10 % 4 * 2 ^ 10 +
        h / 2 ^ 9 % 2 * 2 ^ 9) :=
    hcong _ _ (by omega) (by omega) (by omega)
  have hk :
      (decodeHeader (h / 2 ^ 12 % 16 * 2 ^ 12 + h / 2 ^ 10 % 4 * 2 ^ 10 +
          h / 2 ^ 9 % 2 * 2 ^ 9) = 0 ↔
        h / 2 ^ 12 % 16 = 0 ∨ h / 2 ^ 12 % 16 = 15 ∨ h / 2 ^ 10 % 4 = 3) ∧
      (decodeHeader (h / 2 ^ 12 % 16 * 2 ^ 12 + h / 2 ^ 10 % 4 * 2 ^ 10 +
          h / 2 ^ 9 % 2 * 2 ^ 9) ≠ 0 →
        decodeHeader (h / 2 ^ 12 % 16 * 2 ^ 12 + h / 2 ^ 10 % 4 * 2 ^ 10 +
            h / 2 ^ 9 % 2 * 2 ^ 9) =
          144 * BITRATE_TABLE.getD (h / 2 ^ 12 % 16) 0 * 1000 /
            SAMPLE_RATE_TABLE.getD (h / 2 ^ 10 % 4) 0 + h / 2 ^ 9 % 2 ∧
        1 ≤ decodeHeader (h / 2 ^ 12 % 16 * 2 ^ 12 + h / 2 ^ 10 % 4 * 2 ^ 10 +
            h / 2 ^ 9 % 2 * 2 ^ 9)) :=
    key ⟨h / 2 ^ 12 % 16, h1⟩ ⟨h / 2 ^ 10 % 4, h2⟩ ⟨h / 2 ^ 9 % 2, h3⟩
  rw [← he] at hk
  exact hk

/-- Witness for C2 at the concrete accepted header `0xFFFB9000`. -/
theorem claim_C2_decoder_witness :
    (decodeHeader 0xFFFB9000 = 0 ↔
      0xFFFB9000 / 2 ^ 12 % 16 = 0 ∨ 0xFFFB9000 / 2 ^ 12 % 16 = 15 ∨
        0xFFFB9000 / 2 ^ 10 % 4 = 3) ∧
    (decodeHeader 0xFFFB9000 ≠ 0 →
      decodeHeader 0xFFFB9000 =
          144 * BITRATE_TABLE.getD (0xFFFB9000 / 2 ^ 12 % 16) 0 * 1000 /
            SAMPLE_RATE_TABLE.getD (0xFFFB9000 / 2 ^ 10 % 4) 0 + 0xFFFB9000 / 2 ^ 9 % 2 ∧
      1 ≤ decodeHeader 0xFFFB9000) :=
  claim_C2_decoder 0xFFFB9000 (by norm_num)

/-- C6: at a cursor position whose two bytes match the frame-sync pattern but
whose 4-byte header the decoder rejects, both the streaming pass and the
whole-buffer pass advance the cursor by exactly one byte and continue from
there; the cursor never advances by the header width nor by a frame length
of 0. -/
theorem claim_C6_reject_advance (buffer : List Nat) (offset frameCount : Nat)
    (h : offset + MIN_HEADER_SIZE < buffer.length) (hs : syncAt buffer offset = true)
    (hr : getFrameSize buffer offset = 0) :
    streamScan buffer offset frameCount = streamScan buffer (offset + 1) frameCount ∧
    wholeScan buffer offset frameCount = wholeScan buffer (offset + 1) frameCount :=
  ⟨streamScan_reject buffer offset frameCount h hs hr,
    wholeScan_reject buffer offset frameCount h hs hr⟩

/-- Witness for C6: a sync-matching header with bitrate index 15 is rejected
and the cursor moves from 0 to 1. -/
theorem claim_C6_reject_advance_witness :
    streamScan rejectHeader5 0 0 = streamScan rejectHeader5 1 0 ∧
    wholeScan rejectHeader5 0 0 = wholeScan rejectHeader5 1 0 :=
  claim_C6_reject_advance rejectHeader5 0 0 (by decide) (by decide) (by decide)

/-- C10: the scan loops terminate, with the number of iterations bounded by the
number of bytes remaining ahead of the cursor: any two fuel values at least
`buffer.length - offset` give the same outcome for both loops, and the halt
cursor never lies before the start cursor. -/
theorem claim_C10_termination (buffer : List Nat) (offset frameCount f1 f2 : Nat)
    (h1 : buffer.length - offset ≤ f1) (h2 : buffer.length - offset ≤ f2) :
    streamScanLoop f1 buffer offset frameCount = streamScanLoop f2 buffer offset frameCount ∧
    wholeScanLoop f1 buffer offset frameCount = wholeScanLoop f2 buffer offset frameCount ∧
    offset ≤ (streamScanLoop f1 buffer offset frameCount).1 ∧
    offset ≤ (wholeScanLoop f1 buffer offset frameCount).1 :=
  ⟨streamScanLoop_fuel buffer f1 f2 offset frameCount h1 h2,
    wholeScanLoop_fuel buffer f1 f2 offset frameCount h1 h2,
    streamScanLoop_mono buffer f1 offset frameCount,
    wholeScanLoop_mono buffer f1 offset frameCount⟩

/-- Witness for C10 on a concrete 5-byte buffer with two different fuels. -/
theorem claim_C10_termination_witness :
    streamScanLoop 5 rejectHeader5 0 0 = streamScanLoop 9 rejectHeader5 0 0 ∧
    wholeScanLoop 5 rejectHeader5 0 0 = wholeScanLoop 9 rejectHeader5 0 0 ∧
    0 ≤ (streamScanLoop 5 rejectHeader5 0 0).1 ∧
    0 ≤ (wholeScanLoop 5 rejectHeader5 0 0).1 :=
  claim_C10_termination rejectHeader5 0 0 5 9 (by decide) (by decide)

/-- C9: after any chunk sequence is processed, the retained pending buffer is
at most one maximal frame (1441 bytes) long, and hence the working buffer
while processing one further chunk never exceeds that chunk's size plus one
maximal frame's size. -/
theorem claim_C9_bounded_pending (chunks : List (List Nat)) :
    (processChunks chunks).1.length ≤ 1441 ∧
    ∀ c : List Nat, ((processChunks chunks).1 ++ c).length ≤ c.length + 1441 := by
  have hmain : (processChunks chunks).1.length ≤ 1441 := by
    rw [processChunks_eq]
    show (chunks.flatten.drop (streamScan chunks.flatten 0 0).1).length ≤ 1441
    rw [List.length_drop]
    have hM : MIN_HEADER_SIZE = 4 := rfl
    rcases streamScan_haltedAt chunks.flatten 0 0 with hex | ⟨_, _, hsus⟩
    · omega
    · have hle := getFrameSize_le chunks.flatten (streamScan chunks.flatten 0 0).1
      omega
  refine ⟨hmain, fun c => ?_⟩
  rw [List.length_append]
  omega

/-- C8 (amended): a scan pass halts only when at most `MIN_HEADER_SIZE` bytes
remain ahead of the cursor (the source loop continues only while
`cursor + 4 < length`, so a candidate with exactly 4 bytes remaining is never
examined), or — for the streaming pass — when it suspends at a sync-matching,
decoder-accepted frame that is not fully buffered. -/
theorem claim_C8_amended_halting (buffer : List Nat) (offset frameCount : Nat) :
    buffer.length ≤ (wholeScan buffer offset frameCount).1 + MIN_HEADER_SIZE ∧
    (buffer.length ≤ (streamScan buffer offset frameCount).1 + MIN_HEADER_SIZE ∨
      (syncAt buffer (streamScan buffer offset frameCount).1 = true ∧
        0 < getFrameSize buffer (streamScan buffer offset frameCount).1 ∧
        buffer.length < (streamScan buffer offset frameCount).1 +
          getFrameSize buffer (streamScan buffer offset frameCount).1)) :=
  ⟨wholeScan_haltedAt buffer offset frameCount, streamScan_haltedAt buffer offset frameCount⟩

/-- Counterexample for C8 as stated: on the bare 4-byte valid header, exactly
4 bytes remain at cursor 0 (so the claimed bound `cursor + 4 ≤ length` holds
and the claimed loop examines and counts the frame), yet the source loop
halts immediately without any sync check and reports no frames. -/
theorem claim_C8_counterexample :
    header4.length = 0 + MIN_HEADER_SIZE ∧
    syncAt header4 0 = true ∧
    getFrameSize header4 0 = 417 ∧
    wholeScan header4 0 0 = (0, 0) ∧
    (wholeScanLoopClaimBound header4.length header4 0 0).2 = 1 ∧
    mp3GetFrameCount header4 = Except.error NO_FRAMES_MSG :=
  ⟨rfl, by decide, by decide, by decide, by decide, rfl⟩

/-- Counterexample for C1 as stated: for the buffer `truncFrame5` (an accepted
417-byte header followed by one byte) and its trivial partition into the single
non-empty chunk `truncFrame5`, the streaming scanner suspends on the
incomplete frame and fails with no frames, while the whole-buffer scanner
counts the truncated frame and succeeds with 1. -/
theorem claim_C1_counterexample :
    truncFrame5 ≠ [] ∧
    streamingGetFrameCount [truncFrame5] = Except.error NO_FRAMES_MSG ∧
    mp3GetFrameCount truncFrame5 = Except.ok 1 :=
  ⟨by decide, rfl, rfl⟩

/-- C1 (amended): for every byte buffer B and every partition of B into
non-empty chunks, the streaming scanner produces exactly the whole-buffer
scanner's result, provided the streaming scan of B halts by data exhaustion
rather than suspended on an accepted frame overrunning the end of B (the
whole-buffer scanner counts such a truncated trailing frame, the streaming
scanner discards it). -/
theorem claim_C1_amended_equiv (B : List Nat) (chunks : List (List Nat))
    (hpart : chunks.flatten = B) (_hne : ∀ c ∈ chunks, c ≠ [])
    (hnosusp : B.length ≤ (streamScan B 0 0).1 + MIN_HEADER_SIZE) :
    streamingGetFrameCount chunks = mp3GetFrameCount B := by
  rw [streamingGetFrameCount_eq, hpart]
  simp only [mp3GetFrameCount]
  rw [wholeScan_eq_streamScan B B.length 0 0 (by omega) hnosusp]

/-- Witness for C1 (amended): the 417-byte frame split into two chunks of 200
and 217 bytes gives the whole-buffer result. -/
theorem claim_C1_amended_equiv_witness :
    streamingGetFrameCount [frame417.take 200, frame417.drop 200] =
      mp3GetFrameCount frame417 :=
  claim_C1_amended_equiv frame417 [frame417.take 200, frame417.drop 200]
    (by simp) (by decide) (by decide)

/-- C3: a single valid frame (sync-matching, decoder-accepted header whose
declared size equals the frame's byte length) delivered as two chunks split at
any point `1 ≤ k < L` yields a successful count of exactly 1, and after the
first chunk alone nothing has been counted (the scanner suspends or runs out
of data without counting). -/
theorem claim_C3_boundary_split (f : List Nat) (k : Nat) (hs : syncAt f 0 = true)
    (hv : getFrameSize f 0 = f.length) (hk1 : 1 ≤ k) (hk2 : k < f.length) :
    streamingGetFrameCount [f.take k, f.drop k] = Except.ok 1 ∧
    (processChunk ([], 0) (f.take k)).2 = 0 := by
  have hL1 : 1 < f.length := by have := syncAt_lt f 0 hs; omega
  constructor
  · rw [streamingGetFrameCount_eq]
    have hfl : ([f.take k, f.drop k] : List (List Nat)).flatten = f := by simp
    rw [hfl, streamScan_single_frame f hs hv 0]
    rw [if_neg (by omega), if_neg (by simp)]
  · simp only [processChunk]
    rw [List.nil_append, streamScan_take_frame f hs hv k hk1 hk2 0]
    rw [if_neg (by decide)]

/-- Witness for C3: the 417-byte frame of the spec split at k = 100. -/
theorem claim_C3_boundary_split_witness :
    streamingGetFrameCount [frame417.take 100, frame417.drop 100] = Except.ok 1 ∧
    (processChunk ([], 0) (frame417.take 100)).2 = 0 :=
  claim_C3_boundary_split frame417 100 (by decide) (by decide) (by decide) (by decide)

/-- C4: a prefix none of whose offsets passes the sync test (including the
offset adjacent to the frame start), followed by exactly one complete valid
frame, yields a count of exactly 1 on both scanners; the cursor walks the
prefix byte by byte and the frame is counted once. -/
theorem claim_C4_resync (p f : List Nat)
    (hns : ∀ i, i < p.length → syncAt (p ++ f) i = false)
    (hs : syncAt f 0 = true) (hv : getFrameSize f 0 = f.length) :
    mp3GetFrameCount (p ++ f) = Except.ok 1 ∧
    streamingGetFrameCount [p ++ f] = Except.ok 1 := by
  have hM : MIN_HEADER_SIZE = 4 := rfl
  have hL1 : 1 < f.length := by have := syncAt_lt f 0 hs; omega
  have hL96 : 96 ≤ f.length := by have := getFrameSize_ge f 0 (by omega); omega
  have hlen : (p ++ f).length = p.length + f.length := List.length_append p f
  have hwhole : wholeScan (p ++ f) 0 0 = (p.length + f.length, 0 + 1) := by
    have hskip := wholeScan_skip (p ++ f) p.length 0 0
      (fun i h1 h2 => hns i (by omega)) (by rw [hlen]; omega)
    rw [Nat.zero_add] at hskip
    rw [hskip, wholeScan_tail_frame p f hs hv 0]
  have hstream : streamScan (p ++ f) 0 0 = (p.length + f.length, 0 + 1) := by
    have hskip := streamScan_skip (p ++ f) p.length 0 0
      (fun i h1 h2 => hns i (by omega)) (by rw [hlen]; omega)
    rw [Nat.zero_add] at hskip
    rw [hskip, streamScan_tail_frame p f hs hv 0]
  constructor
  · simp only [mp3GetFrameCount]
    rw [hwhole, if_neg (by rw [hlen]; omega), if_neg (by simp)]
  · rw [streamingGetFrameCount_eq]
    have hfl : ([p ++ f] : List (List Nat)).flatten = p ++ f := by simp
    rw [hfl, hstream, if_neg (by rw [hlen]; omega), if_neg (by simp)]

/-- Witness for C4: one non-sync garbage byte followed by the 417-byte frame. -/
theorem claim_C4_resync_witness :
    mp3GetFrameCount ([0] ++ frame417) = Except.ok 1 ∧
    streamingGetFrameCount [[0] ++ frame417] = Except.ok 1 :=
  claim_C4_resync [0] frame417 (by decide) (by decide) (by decide)

/-- C5: the terminal outcome is exactly one of three cases: a zero-byte source
fails with the empty-input error before any scanning, a non-empty source whose
scan accepts zero frames fails with the no-frames error, and otherwise the
scan succeeds with the positive accumulated frame count. -/
theorem claim_C5_outcomes (chunks : List (List Nat)) :
    (chunks.flatten.length = 0 →
      streamingGetFrameCount chunks = Except.error FILE_IS_EMPTY_MSG) ∧
    (chunks.flatten.length ≠ 0 → (processChunks chunks).2 = 0 →
      streamingGetFrameCount chunks = Except.error NO_FRAMES_MSG) ∧
    (chunks.flatten.length ≠ 0 → 0 < (processChunks chunks).2 →
      streamingGetFrameCount chunks = Except.ok (processChunks chunks).2) := by
  simp only [streamingGetFrameCount]
  refine ⟨fun h => by rw [if_pos h], fun h h0 => ?_, fun h h0 => ?_⟩
  · rw [if_neg h, if_pos h0]
  · rw [if_neg h, if_neg (by omega)]

/-- Witness for C5: the three outcomes at concrete chunk sequences. -/
theorem claim_C5_outcomes_witness :
    streamingGetFrameCount [] = Except.error FILE_IS_EMPTY_MSG ∧
    streamingGetFrameCount [[0, 0, 0, 0, 0]] = Except.error NO_FRAMES_MSG ∧
    streamingGetFrameCount [frame417] = Except.ok (processChunks [frame417]).2 :=
  ⟨(claim_C5_outcomes []).1 rfl,
    (claim_C5_outcomes [[0, 0, 0, 0, 0]]).2.1 (by decide) (by decide),
    (claim_C5_outcomes [frame417]).2.2 (by decide) (by decide)⟩

/-- C7: the header `0xFF 0xFB 0x90 0x00` decodes to frame size
`floor(144 * 128 * 1000 / 44100) + 0 = 417`; one 417-byte zero-padded frame
counts as 1 and ten concatenated such frames count as 10, on both the
whole-buffer and the streaming scanner. -/
theorem claim_C7_concrete :
    decodeHeader 0xFFFB9000 = 417 ∧
    mp3GetFrameCount frame417 = Except.ok 1 ∧
    streamingGetFrameCount [frame417] = Except.ok 1 ∧
    mp3GetFrameCount frames10 = Except.ok 10 ∧
    streamingGetFrameCount [frames10] = Except.ok 10 := by
  have hs : syncAt frame417 0 = true := by decide
  have hv : getFrameSize frame417 0 = frame417.length := by decide
  have hlen417 : frame417.length = 417 := by decide
  have hstream : streamScan frames10 0 0 = (4170, 10) := by
    have h := streamScan_repeat frame417 hs hv 10 0
    rw [hlen417] at h
    exact h
  have hlen : frames10.length = 4170 := by
    show ((List.replicate 10 frame417).flatten).length = 4170
    rw [length_flatten_replicate, hlen417]
  have hwhole : wholeScan frames10 0 0 = (4170, 10) := by
    have hagree := wholeScan_eq_streamScan frames10 frames10.length 0 0 (by omega)
      (by rw [hstream, hlen]; decide)
    rw [hagree, hstream]
  refine ⟨by decide, rfl, rfl, ?_, ?_⟩
  · simp only [mp3GetFrameCount]
    rw [hwhole, hlen]
    rfl
  · rw [streamingGetFrameCount_eq]
    have hfl : ([frames10] : List (List Nat)).flatten = frames10 := by simp
    rw [hfl, hstream, hlen]
    rfl
